import Mathlib

/-!
Verification of the conversation state store in `src/store/index.ts`.

The store is a single state container with list/selection bookkeeping and
one asynchronous orchestration action, `submitQuery`.  We embed the state
as a structure, every action as a pure state transition, and split
`submitQuery` at its single suspension point: the backend outcome is
passed in as an `Except` value, and the fresh identifiers and timestamps
produced by `uuidv4()` / `Date.now()` / `new Date()` are passed in as an
explicit environment.
-/

/-- An agent catalog entry (`Agent` in `@/types`). -/
structure Agent where
  id : String
  name : String
  description : String
  avatar : String
  color : String
  deriving Repr, DecidableEq

/-- A strategy catalog entry (`Strategy` in `@/types`). -/
structure Strategy where
  id : String
  name : String
  description : String
  color : String
  icon : String
  deriving Repr, DecidableEq

/-- A chat message (`Message` in `@/types`).  Timestamps are abstracted to
naturals; optional fields are `Option`s. -/
structure Message where
  id : String
  content : String
  role : String
  agentId : Option String := none
  agentName : Option String := none
  type : Option String := none
  createdAt : Nat := 0
  deriving Repr, DecidableEq

/-- Connection settings (`ApiSettings` in `@/types`). -/
structure ApiSettings where
  apiUrl : String
  apiKey : String
  backendType : String
  n8nConnectionStatus : String
  useDemoMode : Bool
  deriving Repr, DecidableEq

/-- Partial update for `ApiSettings`, as accepted by `updateApiSettings`
(`Partial<ApiSettings>` in TypeScript): present fields overwrite. -/
structure ApiSettingsPatch where
  apiUrl : Option String := none
  apiKey : Option String := none
  backendType : Option String := none
  n8nConnectionStatus : Option String := none
  useDemoMode : Option Bool := none
  deriving Repr, DecidableEq

/-- A stored conversation record.  The `Conversation` type lives in
`@/types` (outside this file); the store only holds a list of them and
never inspects the contents, so a placeholder carrier suffices. -/
structure Conversation where
  id : String
  deriving Repr, DecidableEq

/-- The conversation lifecycle enum: idle, active, or error. -/
inductive ConversationStatus where
  | idle
  | active
  | error
  deriving Repr, DecidableEq

/-- The full store state (`StoreState`). -/
structure StoreState where
  apiSettings : ApiSettings
  agents : List Agent
  selectedAgentIds : List String
  strategies : List Strategy
  selectedStrategy : String
  conversations : List Conversation
  currentConversation : Option String
  messages : List Message
  isLeftSidebarOpen : Bool
  isRightSidebarOpen : Bool
  isProcessing : Bool
  conversationStatus : ConversationStatus
  currentTurn : Nat
  deriving Repr, DecidableEq

/-- Settings value `initialApiSettings`: environment variables are passed as `Option`s,
with the fallback defaults of the source when absent. -/
def initialApiSettings (envUrl envKey : Option String) : ApiSettings :=
  { apiUrl := envUrl.getD "http://localhost:5678"
    apiKey := envKey.getD ""
    backendType := "n8n"
    n8nConnectionStatus := "disconnected"
    useDemoMode := false }

/-- Mock agent catalog `defaultAgents`. -/
def defaultAgents : List Agent :=
  [ { id := "data-architect", name := "Data Architect",
      description := "Designs data infrastructure and systems",
      avatar := "👨‍💻", color := "#4CAF50" },
    { id := "pipeline-engineer", name := "Pipeline Engineer",
      description := "Expert in building efficient data pipelines",
      avatar := "🔧", color := "#2196F3" },
    { id := "data-analyst", name := "Data Analyst",
      description := "Analyzes and interprets complex data",
      avatar := "📊", color := "#FF9800" },
    { id := "data-scientist", name := "Data Scientist",
      description := "Applies statistical models and machine learning",
      avatar := "🧪", color := "#9C27B0" },
    { id := "data-governance", name := "Governance Specialist",
      description := "Ensures data quality and compliance",
      avatar := "📋", color := "#F44336" },
    { id := "data-engineer", name := "Data Engineer",
      description := "Builds and maintains data infrastructure",
      avatar := "💻", color := "#607D8B" } ]

/-- Mock strategy catalog `defaultStrategies`. -/
def defaultStrategies : List Strategy :=
  [ { id := "sequential", name := "Sequential",
      description := "Agents respond in sequence, building on previous responses",
      color := "#2196F3", icon := "arrow-right" },
    { id := "collaborative", name := "Collaborative",
      description := "Agents work together to generate a comprehensive solution",
      color := "#4CAF50", icon := "users" },
    { id := "debate", name := "Debate",
      description := "Agents discuss different approaches to solve the problem",
      color := "#FF9800", icon := "message-square" } ]

/-- The initial store state built by `create(...)`. -/
def initialState (envUrl envKey : Option String) : StoreState :=
  { apiSettings := initialApiSettings envUrl envKey
    agents := defaultAgents
    selectedAgentIds := []
    strategies := defaultStrategies
    selectedStrategy := "sequential"
    conversations := []
    currentConversation := none
    messages := []
    isLeftSidebarOpen := true
    isRightSidebarOpen := true
    isProcessing := false
    conversationStatus := ConversationStatus.idle
    currentTurn := 0 }

/-- Action `updateApiSettings(settings)`: partial merge into `apiSettings`. -/
def updateApiSettings (st : StoreState) (p : ApiSettingsPatch) : StoreState :=
  { st with apiSettings :=
      { apiUrl := p.apiUrl.getD st.apiSettings.apiUrl
        apiKey := p.apiKey.getD st.apiSettings.apiKey
        backendType := p.backendType.getD st.apiSettings.backendType
        n8nConnectionStatus := p.n8nConnectionStatus.getD st.apiSettings.n8nConnectionStatus
        useDemoMode := p.useDemoMode.getD st.apiSettings.useDemoMode } }

/-- Action `selectAgent(agentId)`: at most 4 agents selected at once; returns the
state unchanged when at capacity with a new id, and never duplicates. -/
def selectAgent (st : StoreState) (agentId : String) : StoreState :=
  if 4 ≤ st.selectedAgentIds.length ∧ agentId ∉ st.selectedAgentIds then
    st
  else
    { st with selectedAgentIds :=
        if agentId ∈ st.selectedAgentIds then st.selectedAgentIds
        else st.selectedAgentIds ++ [agentId] }

/-- Action `unselectAgent(agentId)`: keep every selected id other than `agentId`. -/
def unselectAgent (st : StoreState) (agentId : String) : StoreState :=
  { st with selectedAgentIds := st.selectedAgentIds.filter (fun id => id ≠ agentId) }

/-- Action `setSelectedStrategy(strategyId)`: unconditional overwrite. -/
def setSelectedStrategy (st : StoreState) (strategyId : String) : StoreState :=
  { st with selectedStrategy := strategyId }

/-- Action `addMessage(message)`: append one message to the log. -/
def addMessage (st : StoreState) (message : Message) : StoreState :=
  { st with messages := st.messages ++ [message] }

/-- Action `addMessages(messages)`: append several messages, preserving order. -/
def addMessages (st : StoreState) (ms : List Message) : StoreState :=
  { st with messages := st.messages ++ ms }

/-- Action `setCurrentConversation(conversationId)`. -/
def setCurrentConversation (st : StoreState) (conversationId : Option String) : StoreState :=
  { st with currentConversation := conversationId }

/-- Action `toggleLeftSidebar()`. -/
def toggleLeftSidebar (st : StoreState) : StoreState :=
  { st with isLeftSidebarOpen := !st.isLeftSidebarOpen }

/-- Action `toggleRightSidebar()`. -/
def toggleRightSidebar (st : StoreState) : StoreState :=
  { st with isRightSidebarOpen := !st.isRightSidebarOpen }

/-- Action `setConversationStatus(status)`. -/
def setConversationStatus (st : StoreState) (status : ConversationStatus) : StoreState :=
  { st with conversationStatus := status }

/-- Action `resetConversation()`: clear the conversation lifecycle slice. -/
def resetConversation (st : StoreState) : StoreState :=
  { st with messages := []
            conversationStatus := ConversationStatus.idle
            currentTurn := 0
            isProcessing := false }

/-- The backend response body returned by `n8nService.submitQuery`:
a success flag, the response messages, and an optional error text. -/
structure BackendResponse where
  success : Bool
  messages : List Message
  error : Option String := none
  deriving Repr, DecidableEq

/-- A thrown/rejected failure of the backend call.  `some m` models a
rejection with an `Error` whose `.message` is `m`; `none` models a
rejection with a non-`Error` value. -/
def thrownText : Option String → String
  | some m => m
  | none => "Unknown error occurred"

/-- The fresh identifiers and clock readings consumed by one
`submitQuery` invocation: the `uuidv4()` results for the user and error
messages, the `Date.now()` reading used for the thinking-message id, and
the `new Date()` timestamps. -/
structure QueryEnv where
  userId : String
  errId : String
  now : Nat
  userTime : Nat := 0
  thinkingTime : Nat := 0
  errTime : Nat := 0
  deriving Repr, DecidableEq

/-- The thinking placeholder id: `` `thinking-${Date.now()}` ``. -/
def thinkingId (now : Nat) : String :=
  "thinking-" ++ toString now

/-- The user message appended by `submitQuery`. -/
def userMessageOf (query : String) (env : QueryEnv) : Message :=
  { id := env.userId, content := query, role := "user", createdAt := env.userTime }

/-- The transient thinking placeholder appended by `submitQuery`. -/
def thinkingMessageOf (env : QueryEnv) : Message :=
  { id := thinkingId env.now
    content := "Thinking..."
    role := "assistant"
    agentId := some "coordinator"
    agentName := some "Coordinator"
    type := some "thinking"
    createdAt := env.thinkingTime }

/-- The system error message appended when no agent is selected. -/
def noAgentErrorMessageOf (env : QueryEnv) : Message :=
  { id := env.errId
    content := "Please select at least one agent before submitting a query."
    role := "system"
    type := some "error"
    createdAt := env.errTime }

/-- The system error message appended on a response flagged unsuccessful. -/
def responseErrorMessageOf (resp : BackendResponse) (env : QueryEnv) : Message :=
  { id := env.errId
    content := resp.error.getD "An unknown error occurred"
    role := "system"
    type := some "error"
    createdAt := env.errTime }

/-- The system error message appended on a thrown/rejected failure. -/
def thrownErrorMessageOf (e : Option String) (env : QueryEnv) : Message :=
  { id := env.errId
    content := "Error: " ++ thrownText e
    role := "system"
    type := some "error"
    createdAt := env.errTime }

/-- The synchronous prefix of `submitQuery` past the agent check, up to the
`await` of the backend call: append the user message, set processing/status
and bump the turn counter (from the `get()` snapshot), append the thinking
placeholder. -/
def submitQueryStart (st : StoreState) (query : String) (env : QueryEnv) : StoreState :=
  let st1 := addMessage st (userMessageOf query env)
  let st2 := { st1 with
    isProcessing := true
    conversationStatus :=
      if 0 < st.messages.length then ConversationStatus.active else ConversationStatus.active
    currentTurn := st.currentTurn + 1 }
  addMessage st2 (thinkingMessageOf env)

/-- The continuation of `submitQuery` after the backend call settles:
the `try`-branch on a resolved response, the `catch`-branch on a
rejection.  Removal of the thinking placeholder filters by exact id. -/
def submitQueryFinish (st : StoreState) (env : QueryEnv)
    (result : Except (Option String) BackendResponse) : StoreState :=
  match result with
  | Except.ok response =>
      let st1 := { st with
        messages := st.messages.filter (fun msg => msg.id ≠ thinkingId env.now) }
      if response.success then
        addMessages st1 response.messages
      else
        let st2 := addMessage st1 (responseErrorMessageOf response env)
        { st2 with conversationStatus := ConversationStatus.error }
  | Except.error e =>
      let st1 := { st with
        messages := st.messages.filter (fun msg => msg.id ≠ thinkingId env.now) }
      let st2 := addMessage st1 (thrownErrorMessageOf e env)
      { st2 with conversationStatus := ConversationStatus.error }

/-- Action `submitQuery(query)` as a whole-invocation state transition: the
no-agent early return, otherwise start, settle, and the `finally`-block
clearing `isProcessing` as the last step. -/
def submitQuery (st : StoreState) (query : String) (env : QueryEnv)
    (result : Except (Option String) BackendResponse) : StoreState :=
  if st.selectedAgentIds.length = 0 then
    addMessage st (noAgentErrorMessageOf env)
  else
    let st1 := submitQueryStart st query env
    let st2 := submitQueryFinish st1 env result
    { st2 with isProcessing := false }

/-- Selector `useSelectedAgents`: the catalog entries whose id is selected, in
catalog order (a filter over `agents`). -/
def useSelectedAgents (st : StoreState) : List Agent :=
  st.agents.filter (fun agent => st.selectedAgentIds.contains agent.id)

/-- Selector `useSelectedStrategy`: lookup of the selected strategy in the catalog. -/
def useSelectedStrategy (st : StoreState) : Option Strategy :=
  st.strategies.find? (fun strategy => strategy.id = st.selectedStrategy)

/-- One store operation, for reachability statements.  `submitQuery`
carries its fresh-name environment and the backend outcome. -/
inductive Op where
  | updateApiSettings (p : ApiSettingsPatch)
  | selectAgent (agentId : String)
  | unselectAgent (agentId : String)
  | setSelectedStrategy (strategyId : String)
  | addMessage (m : Message)
  | addMessages (ms : List Message)
  | setCurrentConversation (conversationId : Option String)
  | toggleLeftSidebar
  | toggleRightSidebar
  | setConversationStatus (status : ConversationStatus)
  | resetConversation
  | submitQuery (query : String) (env : QueryEnv)
      (result : Except (Option String) BackendResponse)

/-- Interpretation of one operation on the store state. -/
def applyOp (st : StoreState) : Op → StoreState
  | Op.updateApiSettings p => updateApiSettings st p
  | Op.selectAgent a => selectAgent st a
  | Op.unselectAgent a => unselectAgent st a
  | Op.setSelectedStrategy s => setSelectedStrategy st s
  | Op.addMessage m => addMessage st m
  | Op.addMessages ms => addMessages st ms
  | Op.setCurrentConversation c => setCurrentConversation st c
  | Op.toggleLeftSidebar => toggleLeftSidebar st
  | Op.toggleRightSidebar => toggleRightSidebar st
  | Op.setConversationStatus s => setConversationStatus st s
  | Op.resetConversation => resetConversation st
  | Op.submitQuery q env r => submitQuery st q env r

/-- The state after running a sequence of operations from the initial
state (environment variables `envUrl`, `envKey`). -/
def runOps (envUrl envKey : Option String) (ops : List Op) : StoreState :=
  ops.foldl applyOp (initialState envUrl envKey)

/-- Operation sequences that only select catalog agent ids and set catalog
strategy ids.  The actions themselves perform no such validation; this
predicate captures the caller discipline the data-model invariant needs. -/
def GoodOp : Op → Prop
  | Op.selectAgent a => a ∈ defaultAgents.map Agent.id
  | Op.setSelectedStrategy s => s ∈ defaultStrategies.map Strategy.id
  | _ => True

instance (op : Op) : Decidable (GoodOp op) := by
  cases op <;> dsimp only [GoodOp] <;> infer_instance

/-- The selection/catalog invariant of the data model, strengthened with
the fact that no operation ever rewrites either catalog. -/
def SelectionInv (st : StoreState) : Prop :=
  (∀ a ∈ st.selectedAgentIds, a ∈ st.agents.map Agent.id) ∧
  st.selectedStrategy ∈ st.strategies.map Strategy.id ∧
  st.agents = defaultAgents ∧
  st.strategies = defaultStrategies

/-- A concrete state with one agent selected, for instantiations. -/
def stSel : StoreState :=
  { initialState none none with selectedAgentIds := ["data-architect"] }

/-- A concrete state at the four-agent selection capacity. -/
def stFour : StoreState :=
  { initialState none none with
      selectedAgentIds :=
        ["data-architect", "pipeline-engineer", "data-analyst", "data-scientist"] }

/-- Concrete fresh names and clock readings for instantiations. -/
def env0 : QueryEnv := { userId := "user-1", errId := "err-1", now := 42 }

/-- A concrete success-flagged backend response. -/
def respOk : BackendResponse :=
  { success := true
    messages := [{ id := "resp-1", content := "hi", role := "assistant" }] }

/-- A concrete failure-flagged backend response. -/
def respFail : BackendResponse :=
  { success := false, messages := [], error := some "backend down" }

/-- Helper: which fields `selectAgent` can change, and how. -/
theorem selectAgent_fields (st : StoreState) (a : String) :
    ((selectAgent st a).selectedAgentIds = st.selectedAgentIds ∨
     (selectAgent st a).selectedAgentIds = st.selectedAgentIds ++ [a]) ∧
    (selectAgent st a).agents = st.agents ∧
    (selectAgent st a).strategies = st.strategies ∧
    (selectAgent st a).selectedStrategy = st.selectedStrategy := by
  unfold selectAgent
  split
  · exact ⟨Or.inl rfl, rfl, rfl, rfl⟩
  · refine ⟨?_, rfl, rfl, rfl⟩
    dsimp only
    split
    · exact Or.inl rfl
    · exact Or.inr rfl

/-- Helper: `submitQuery` never touches the selection or catalog slices. -/
theorem submitQuery_selection_frame (st : StoreState) (q : String) (env : QueryEnv)
    (r : Except (Option String) BackendResponse) :
    (submitQuery st q env r).selectedAgentIds = st.selectedAgentIds ∧
    (submitQuery st q env r).selectedStrategy = st.selectedStrategy ∧
    (submitQuery st q env r).agents = st.agents ∧
    (submitQuery st q env r).strategies = st.strategies := by
  cases r with
  | ok resp =>
    by_cases h : st.selectedAgentIds.length = 0 <;>
      by_cases hs : resp.success = true <;>
        simp [submitQuery, submitQueryStart, submitQueryFinish, addMessage,
          addMessages, h, hs]
  | error e =>
    by_cases h : st.selectedAgentIds.length = 0 <;>
      simp [submitQuery, submitQueryStart, submitQueryFinish, addMessage,
        addMessages, h]

/-- Helper: every well-aimed operation preserves the selection invariant. -/
theorem applyOp_preserves {st : StoreState} {op : Op}
    (hg : GoodOp op) (hi : SelectionInv st) : SelectionInv (applyOp st op) := by
  obtain ⟨h1, h2, h3, h4⟩ := hi
  cases op with
  | updateApiSettings p => exact ⟨h1, h2, h3, h4⟩
  | selectAgent a =>
      simp only [applyOp]
      obtain ⟨hsel, hag, hstr, hss⟩ := selectAgent_fields st a
      refine ⟨?_, ?_, ?_, ?_⟩
      · intro x hx
        rw [hag]
        rcases hsel with he | he
        · rw [he] at hx
          exact h1 x hx
        · rw [he] at hx
          rcases List.mem_append.mp hx with hx1 | hx2
          · exact h1 x hx1
          · have hxa : x = a := by simpa using hx2
            rw [hxa, h3]
            exact hg
      · rw [hss, hstr]
        exact h2
      · rw [hag]
        exact h3
      · rw [hstr]
        exact h4
  | unselectAgent a =>
      refine ⟨?_, h2, h3, h4⟩
      intro x hx
      exact h1 x (List.mem_of_mem_filter hx)
  | setSelectedStrategy s =>
      refine ⟨h1, ?_, h3, h4⟩
      show s ∈ List.map Strategy.id st.strategies
      rw [h4]
      exact hg
  | addMessage m => exact ⟨h1, h2, h3, h4⟩
  | addMessages ms => exact ⟨h1, h2, h3, h4⟩
  | setCurrentConversation c => exact ⟨h1, h2, h3, h4⟩
  | toggleLeftSidebar => exact ⟨h1, h2, h3, h4⟩
  | toggleRightSidebar => exact ⟨h1, h2, h3, h4⟩
  | setConversationStatus s => exact ⟨h1, h2, h3, h4⟩
  | resetConversation => exact ⟨h1, h2, h3, h4⟩
  | submitQuery q env r =>
      simp only [applyOp]
      obtain ⟨hsel, hss, hag, hstr⟩ := submitQuery_selection_frame st q env r
      refine ⟨?_, ?_, ?_, ?_⟩
      · rw [hsel, hag]
        exact h1
      · rw [hss, hstr]
        exact h2
      · rw [hag]
        exact h3
      · rw [hstr]
        exact h4

/-- Helper: the selection invariant is inductive along operation folds. -/
theorem foldl_preserves (ops : List Op) :
    ∀ st, SelectionInv st → (∀ op ∈ ops, GoodOp op) →
      SelectionInv (ops.foldl applyOp st) := by
  induction ops with
  | nil => intro st hi _; exact hi
  | cons op rest ih =>
      intro st hi h
      exact ih _ (applyOp_preserves (h op (by simp)) hi)
        (fun o ho => h o (by simp [ho]))

/-- Helper: the initial state satisfies the selection invariant. -/
theorem initialState_inv (u k : Option String) : SelectionInv (initialState u k) := by
  refine ⟨?_, ?_, rfl, rfl⟩
  · intro x hx
    cases hx
  · simp [initialState, defaultStrategies]

/-- C1: with at least one selected agent and a success-flagged backend
response, `submitQuery` first appends the user message (content equal to
the query) and the transient thinking placeholder; after the backend
resolves, no message with the placeholder id remains, the returned
messages are appended in order, the turn counter grows by exactly one and
the conversation status is active.  The freshness hypotheses say that the
time-derived placeholder id collides with no other message id. -/
theorem submitQuery_success_spec (st : StoreState) (q : String) (env : QueryEnv)
    (resp : BackendResponse)
    (hsel : st.selectedAgentIds ≠ [])
    (hsucc : resp.success = true)
    (hfresh : ∀ m ∈ st.messages, m.id ≠ thinkingId env.now)
    (huser : env.userId ≠ thinkingId env.now)
    (hresp : ∀ m ∈ resp.messages, m.id ≠ thinkingId env.now) :
    (submitQueryStart st q env).messages
      = st.messages ++ [userMessageOf q env, thinkingMessageOf env] ∧
    (userMessageOf q env).content = q ∧
    (userMessageOf q env).role = "user" ∧
    (thinkingMessageOf env).type = some "thinking" ∧
    (thinkingMessageOf env).id = thinkingId env.now ∧
    (submitQuery st q env (Except.ok resp)).messages
      = st.messages ++ [userMessageOf q env] ++ resp.messages ∧
    (∀ m ∈ (submitQuery st q env (Except.ok resp)).messages, m.id ≠ thinkingId env.now) ∧
    (submitQuery st q env (Except.ok resp)).currentTurn = st.currentTurn + 1 ∧
    (submitQuery st q env (Except.ok resp)).conversationStatus = ConversationStatus.active := by
  have hlen : ¬ st.selectedAgentIds.length = 0 := by
    simpa [List.length_eq_zero] using hsel
  have hstf : st.messages.filter (fun msg => msg.id ≠ thinkingId env.now) = st.messages :=
    List.filter_eq_self.mpr (by intro m hm; simpa using hfresh m hm)
  have hmsg : (submitQuery st q env (Except.ok resp)).messages
      = st.messages ++ [userMessageOf q env] ++ resp.messages := by
    simp [submitQuery, hlen, submitQueryStart, submitQueryFinish, addMessage,
      addMessages, hsucc, List.filter_append, hstf, userMessageOf, thinkingMessageOf, huser]
    intro m hm
    exact hfresh m hm
  refine ⟨?_, rfl, rfl, rfl, rfl, hmsg, ?_, ?_, ?_⟩
  · simp [submitQueryStart, addMessage]
  · intro m hm
    rw [hmsg] at hm
    rcases List.mem_append.mp hm with hm1 | hm2
    · rcases List.mem_append.mp hm1 with hs | hu
      · exact hfresh m hs
      · have hmu : m = userMessageOf q env := by simpa using hu
        simpa [hmu, userMessageOf] using huser
    · exact hresp m hm2
  · simp [submitQuery, hlen, submitQueryStart, submitQueryFinish, hsucc,
      addMessage, addMessages]
  · simp [submitQuery, hlen, submitQueryStart, submitQueryFinish, hsucc,
      addMessage, addMessages]

theorem submitQuery_success_spec_witness :
    (submitQuery stSel "hello" env0 (Except.ok respOk)).messages
      = stSel.messages ++ [userMessageOf "hello" env0] ++ respOk.messages :=
  (submitQuery_success_spec stSel "hello" env0 respOk (by decide) (by decide)
    (by decide) (by decide) (by decide)).2.2.2.2.2.1

/-- C2: with an empty selection, `submitQuery` appends exactly one system
error message, leaves processing, status and the turn counter unchanged,
and its outcome does not depend on the backend result at all. -/
theorem submitQuery_noAgents_spec (st : StoreState) (q : String) (env : QueryEnv)
    (r : Except (Option String) BackendResponse)
    (h : st.selectedAgentIds = []) :
    (submitQuery st q env r).messages = st.messages ++ [noAgentErrorMessageOf env] ∧
    (noAgentErrorMessageOf env).role = "system" ∧
    (noAgentErrorMessageOf env).type = some "error" ∧
    (submitQuery st q env r).isProcessing = st.isProcessing ∧
    (submitQuery st q env r).conversationStatus = st.conversationStatus ∧
    (submitQuery st q env r).currentTurn = st.currentTurn ∧
    (∀ r', submitQuery st q env r = submitQuery st q env r') := by
  have hlen : st.selectedAgentIds.length = 0 := by simp [h]
  refine ⟨?_, rfl, rfl, ?_, ?_, ?_, ?_⟩ <;> simp [submitQuery, hlen, addMessage]

theorem submitQuery_noAgents_spec_witness :
    (submitQuery (initialState none none) "" env0 (Except.ok respOk)).messages
      = (initialState none none).messages ++ [noAgentErrorMessageOf env0] :=
  (submitQuery_noAgents_spec (initialState none none) "" env0 (Except.ok respOk) rfl).1

/-- C3: with at least one selected agent, `submitQuery` ends with
`isProcessing` false for every backend outcome, success, signaled failure
or rejection alike; in the embedding the clearing record update is
literally the outermost (last) transition of the invocation. -/
theorem submitQuery_isProcessing_spec (st : StoreState) (q : String) (env : QueryEnv)
    (r : Except (Option String) BackendResponse)
    (h : st.selectedAgentIds ≠ []) :
    (submitQuery st q env r).isProcessing = false := by
  have hlen : ¬ st.selectedAgentIds.length = 0 := by
    simpa [List.length_eq_zero] using h
  simp [submitQuery, hlen]

theorem submitQuery_isProcessing_spec_witness :
    (submitQuery stSel "hello" env0 (Except.error (some "boom"))).isProcessing = false :=
  submitQuery_isProcessing_spec stSel "hello" env0 (Except.error (some "boom"))
    (by decide)

/-- C4: with at least one selected agent, both failure paths of
`submitQuery` drop the thinking placeholder, append a system error
message — the response error text (with fallback) when the failure is
signaled, the text Error: followed by the rejection message (with
fallback) when thrown — and set the conversation status to error; a
rejection carrying the message timeout produces content Error: timeout. -/
theorem submitQuery_failure_spec (st : StoreState) (q : String) (env : QueryEnv)
    (resp : BackendResponse) (e : Option String)
    (hsel : st.selectedAgentIds ≠ [])
    (hfresh : ∀ m ∈ st.messages, m.id ≠ thinkingId env.now)
    (huser : env.userId ≠ thinkingId env.now)
    (herr : env.errId ≠ thinkingId env.now) :
    (resp.success = false →
      (submitQuery st q env (Except.ok resp)).messages
        = st.messages ++ [userMessageOf q env, responseErrorMessageOf resp env] ∧
      (submitQuery st q env (Except.ok resp)).conversationStatus = ConversationStatus.error ∧
      (∀ m ∈ (submitQuery st q env (Except.ok resp)).messages,
        m.id ≠ thinkingId env.now)) ∧
    (responseErrorMessageOf resp env).role = "system" ∧
    (responseErrorMessageOf resp env).content = resp.error.getD "An unknown error occurred" ∧
    (submitQuery st q env (Except.error e)).messages
      = st.messages ++ [userMessageOf q env, thrownErrorMessageOf e env] ∧
    (submitQuery st q env (Except.error e)).conversationStatus = ConversationStatus.error ∧
    (∀ m ∈ (submitQuery st q env (Except.error e)).messages, m.id ≠ thinkingId env.now) ∧
    (thrownErrorMessageOf e env).role = "system" ∧
    (thrownErrorMessageOf e env).content = "Error: " ++ thrownText e ∧
    (thrownErrorMessageOf (some "timeout") env).content = "Error: timeout" := by
  have hlen : ¬ st.selectedAgentIds.length = 0 := by
    simpa [List.length_eq_zero] using hsel
  have hstf : st.messages.filter (fun msg => msg.id ≠ thinkingId env.now) = st.messages :=
    List.filter_eq_self.mpr (by intro m hm; simpa using hfresh m hm)
  have hmsgok : ∀ hf : resp.success = false,
      (submitQuery st q env (Except.ok resp)).messages
        = st.messages ++ [userMessageOf q env, responseErrorMessageOf resp env] := by
    intro hf
    simp [submitQuery, hlen, submitQueryStart, submitQueryFinish, addMessage,
      addMessages, hf, List.filter_append, hstf, userMessageOf, thinkingMessageOf, huser]
    intro m hm
    exact hfresh m hm
  have hmsgerr : (submitQuery st q env (Except.error e)).messages
      = st.messages ++ [userMessageOf q env, thrownErrorMessageOf e env] := by
    simp [submitQuery, hlen, submitQueryStart, submitQueryFinish, addMessage,
      addMessages, List.filter_append, hstf, userMessageOf, thinkingMessageOf, huser]
    intro m hm
    exact hfresh m hm
  have habsent : ∀ (L : List Message) (me : Message),
      L = st.messages ++ [userMessageOf q env, me] → me.id = env.errId →
      ∀ m ∈ L, m.id ≠ thinkingId env.now := by
    intro L me hL hid m hm
    rw [hL] at hm
    rcases List.mem_append.mp hm with hs | hu
    · exact hfresh m hs
    · rcases List.mem_cons.mp hu with h1 | h2
      · simpa [h1, userMessageOf] using huser
      · have hml : m = me := by simpa using h2
        rw [hml, hid]
        exact herr
  refine ⟨?_, rfl, rfl, hmsgerr, ?_, ?_, rfl, rfl, rfl⟩
  · intro hf
    refine ⟨hmsgok hf, ?_, habsent _ _ (hmsgok hf) rfl⟩
    simp [submitQuery, hlen, submitQueryStart, submitQueryFinish, addMessage,
      addMessages, hf]
  · simp [submitQuery, hlen, submitQueryStart, submitQueryFinish, addMessage,
      addMessages]
  · exact habsent _ _ hmsgerr rfl

theorem submitQuery_failure_spec_witness :
    (submitQuery stSel "hello" env0 (Except.ok respFail)).conversationStatus
        = ConversationStatus.error ∧
    (thrownErrorMessageOf (some "timeout") env0).content = "Error: timeout" :=
  ⟨((submitQuery_failure_spec stSel "hello" env0 respFail (some "timeout")
      (by decide) (by decide) (by decide) (by decide)).1 rfl).2.1,
   (submitQuery_failure_spec stSel "hello" env0 respFail (some "timeout")
      (by decide) (by decide) (by decide) (by decide)).2.2.2.2.2.2.2.2⟩

/-- C5: `selectAgent` is a no-op on the whole state when 4 agents are
selected and the id is new, a no-op when the id is already selected (no
duplicate), and otherwise appends the id at the end, preserving the
insertion order of the existing entries. -/
theorem selectAgent_spec (st : StoreState) (agentId : String) :
    (st.selectedAgentIds.length = 4 → agentId ∉ st.selectedAgentIds →
      selectAgent st agentId = st) ∧
    (agentId ∈ st.selectedAgentIds → selectAgent st agentId = st) ∧
    (agentId ∉ st.selectedAgentIds → st.selectedAgentIds.length < 4 →
      (selectAgent st agentId).selectedAgentIds = st.selectedAgentIds ++ [agentId] ∧
      (selectAgent st agentId).selectedAgentIds.take st.selectedAgentIds.length
        = st.selectedAgentIds) := by
  refine ⟨?_, ?_, ?_⟩
  · intro hlen hmem
    simp [selectAgent, hlen, hmem]
  · intro hmem
    simp [selectAgent, hmem]
  · intro hmem hlen
    constructor
    · simp [selectAgent, hmem, Nat.not_le.mpr hlen]
    · simp [selectAgent, hmem, Nat.not_le.mpr hlen, List.take_append]

theorem selectAgent_spec_witness :
    selectAgent stFour "data-engineer" = stFour ∧
    (selectAgent stSel "data-analyst").selectedAgentIds
      = stSel.selectedAgentIds ++ ["data-analyst"] :=
  ⟨(selectAgent_spec stFour "data-engineer").1 (by decide) (by decide),
   ((selectAgent_spec stSel "data-analyst").2.2 (by decide) (by decide)).1⟩

/-- C6 (amended): along any operation sequence whose `selectAgent`
arguments are catalog agent ids and whose `setSelectedStrategy` arguments
are catalog strategy ids, every reachable state keeps the selected agent
ids inside the agent catalog and the selected strategy inside the
strategy catalog.  The restriction is necessary: the actions validate
nothing (see the counterexample). -/
theorem selection_invariant_amended (u k : Option String) (ops : List Op)
    (h : ∀ op ∈ ops, GoodOp op) :
    (∀ a ∈ (runOps u k ops).selectedAgentIds,
      a ∈ (runOps u k ops).agents.map Agent.id) ∧
    (runOps u k ops).selectedStrategy
      ∈ (runOps u k ops).strategies.map Strategy.id := by
  have hi := foldl_preserves ops (initialState u k) (initialState_inv u k) h
  exact ⟨hi.1, hi.2.1⟩

theorem selection_invariant_amended_witness :
    (∀ a ∈ (runOps none none [Op.selectAgent "data-architect",
        Op.setSelectedStrategy "debate"]).selectedAgentIds,
      a ∈ (runOps none none [Op.selectAgent "data-architect",
        Op.setSelectedStrategy "debate"]).agents.map Agent.id) ∧
    (runOps none none [Op.selectAgent "data-architect",
        Op.setSelectedStrategy "debate"]).selectedStrategy
      ∈ (runOps none none [Op.selectAgent "data-architect",
        Op.setSelectedStrategy "debate"]).strategies.map Strategy.id :=
  selection_invariant_amended none none
    [Op.selectAgent "data-architect", Op.setSelectedStrategy "debate"] (by decide)

/-- C6 (counterexample to the claim as stated): one `selectAgent` call
with an id outside the catalog reaches a state whose selection contains
an id that names no catalog entry, because `selectAgent` performs no
validation against the catalog. -/
theorem selection_invariant_cex :
    "bogus-agent" ∈ (runOps none none [Op.selectAgent "bogus-agent"]).selectedAgentIds ∧
    "bogus-agent" ∉ (runOps none none [Op.selectAgent "bogus-agent"]).agents.map Agent.id := by
  decide

/-- C7: `resetConversation` always yields an empty message list, idle
status, turn counter 0 and processing false, whatever the prior state. -/
theorem resetConversation_spec (st : StoreState) :
    (resetConversation st).messages = [] ∧
    (resetConversation st).conversationStatus = ConversationStatus.idle ∧
    (resetConversation st).currentTurn = 0 ∧
    (resetConversation st).isProcessing = false :=
  ⟨rfl, rfl, rfl, rfl⟩

/-- C8: the derived selected-agents view is exactly the catalog entries
whose id is currently selected, and it is a sublist of the catalog, hence
in catalog order rather than selection order. -/
theorem useSelectedAgents_spec (st : StoreState) :
    (useSelectedAgents st).Sublist st.agents ∧
    ∀ a, a ∈ useSelectedAgents st ↔ a ∈ st.agents ∧ a.id ∈ st.selectedAgentIds := by
  constructor
  · exact List.filter_sublist _
  · intro a
    simp [useSelectedAgents]

/-- C9: `unselectAgent` is a no-op on the whole state when the id is not
selected; otherwise it removes the id, keeping the remaining ids in their
relative order (the new selection is a sublist of the old one and keeps
every other id). -/
theorem unselectAgent_spec (st : StoreState) (agentId : String) :
    (agentId ∉ st.selectedAgentIds → unselectAgent st agentId = st) ∧
    agentId ∉ (unselectAgent st agentId).selectedAgentIds ∧
    (unselectAgent st agentId).selectedAgentIds.Sublist st.selectedAgentIds ∧
    (∀ x, x ≠ agentId →
      (x ∈ (unselectAgent st agentId).selectedAgentIds ↔ x ∈ st.selectedAgentIds)) := by
  refine ⟨?_, ?_, ?_, ?_⟩
  · intro hmem
    have h : st.selectedAgentIds.filter (fun id => id ≠ agentId) = st.selectedAgentIds :=
      List.filter_eq_self.mpr (by intro a ha; simp; intro he; exact hmem (he ▸ ha))
    unfold unselectAgent
    rw [h]
  · simp [unselectAgent]
  · exact List.filter_sublist _
  · intro x hx
    simp [unselectAgent, hx]

theorem unselectAgent_spec_witness :
    unselectAgent stSel "pipeline-engineer" = stSel :=
  (unselectAgent_spec stSel "pipeline-engineer").1 (by decide)

/-- C10: `resetConversation` leaves every slice outside the conversation
lifecycle untouched: settings, both catalogs, both selections, the
conversation list and pointer, and both sidebar flags. -/
theorem resetConversation_frame_spec (st : StoreState) :
    (resetConversation st).apiSettings = st.apiSettings ∧
    (resetConversation st).agents = st.agents ∧
    (resetConversation st).selectedAgentIds = st.selectedAgentIds ∧
    (resetConversation st).strategies = st.strategies ∧
    (resetConversation st).selectedStrategy = st.selectedStrategy ∧
    (resetConversation st).conversations = st.conversations ∧
    (resetConversation st).currentConversation = st.currentConversation ∧
    (resetConversation st).isLeftSidebarOpen = st.isLeftSidebarOpen ∧
    (resetConversation st).isRightSidebarOpen = st.isRightSidebarOpen :=
  ⟨rfl, rfl, rfl, rfl, rfl, rfl, rfl, rfl, rfl⟩
